import Mathlib

/-!
Verification of the SFDD sensor-based fault detection engine.

This file gives a shallow embedding, in Lean 4, of the core of the SFDD
repository (src/sfdd/correlation.py, src/sfdd/patterns.py,
src/sfdd/structural_model.py, src/sfdd/sfdd.py) and settles a list of
claims about it.  Measurements, timestamps and thresholds are embedded
as rational numbers; Python lists and numpy arrays become Lean lists; a
numpy matrix is a list of rows.  Fallible Python operations
(out-of-range indexing, networkx queries on a missing node) are embedded
in the Except monad over an explicit error type.  Rational division by
zero yields 0 where float division would produce inf or NaN; theorems
whose meaning depends on slope values therefore assume (or use) inputs
with distinct consecutive timestamps.  The one float NaN the engine
really manipulates — an undefined Pearson coefficient — is modelled
explicitly by a dedicated constructor of the correlation-entry type.
-/

/-- Errors that the embedded Python code can raise.
`indexError` models a Python IndexError (out-of-range list/array access).
`networkXError` models the NetworkXError raised by
`networkx.algorithms.dag.ancestors` when the queried node is not in the
graph.  `insufficientDataError` is the error type *named by the spec*
for too-short pattern windows; the source code never defines nor raises
any such exception (no such class exists anywhere in the repository), so
this constructor exists only so that the spec's statement about it can
be formalised and compared with what the code actually raises. -/
inductive PyErr where
  | indexError
  | networkXError
  | insufficientDataError
  deriving DecidableEq, Repr

instance [DecidableEq ε] [DecidableEq α] : DecidableEq (Except ε α)
  | .ok a, .ok b => if h : a = b then isTrue (by rw [h]) else isFalse (by simp [h])
  | .error a, .error b => if h : a = b then isTrue (by rw [h]) else isFalse (by simp [h])
  | .ok _, .error _ => isFalse (by simp)
  | .error _, .ok _ => isFalse (by simp)

/-- Embeds Python's `xs[i]` for a non-negative index: returns the element
or raises IndexError. -/
def pyGet (xs : List α) (i : ℕ) : Except PyErr α :=
  match xs.get? i with
  | some x => .ok x
  | none => .error .indexError

/-- Python's builtin `abs` on a rational value, written with an explicit
branch so that it evaluates in the kernel. -/
def pyAbs (x : ℚ) : ℚ := if x < 0 then -x else x

namespace PatternLibrary

/-- Loop body of `PatternLibrary.stuck_at`: walks the measurement list
comparing each element with the previous one (the Python loop also
compares `measurements[0]` with itself, which never triggers). -/
def stuckAtLoop (threshold : ℚ) : ℚ → List ℚ → Bool
  | _, [] => true
  | prev, x :: rest =>
      if pyAbs (x - prev) > threshold then false else stuckAtLoop threshold x rest

/-- Embedding of `PatternLibrary.stuck_at(measurements, threshold)`:
`prev_x = measurements[0]` raises IndexError on an empty array, then every
element is compared against its predecessor.  The Python default for the
threshold is 1e-3; callers of this embedding pass it explicitly. -/
def stuck_at (measurements : List ℚ) (threshold : ℚ) : Except PyErr Bool :=
  match measurements with
  | [] => .error .indexError
  | m0 :: _ => .ok (stuckAtLoop threshold m0 measurements)

/-- Loop of `PatternLibrary.drift`: for each remaining index i computes
`slope = (m[i]-m[i-1])/(t[i]-t[i-1])`; on a change bigger than the
threshold it either records the (first) change or returns False on a
second change; `prev_slope` is always updated to the current slope. -/
def driftLoop (threshold : ℚ) (m t : List ℚ) :
    List ℕ → ℚ → Bool → Except PyErr Bool
  | [], _, slopeChanged => .ok slopeChanged
  | i :: rest, prevSlope, slopeChanged => do
      let mi ← pyGet m i
      let mi1 ← pyGet m (i - 1)
      let ti ← pyGet t i
      let ti1 ← pyGet t (i - 1)
      let slope := (mi - mi1) / (ti - ti1)
      if pyAbs (slope - prevSlope) > threshold then
        if slopeChanged then
          .ok false
        else
          driftLoop threshold m t rest slope true
      else
        driftLoop threshold m t rest slope slopeChanged

/-- Embedding of `PatternLibrary.drift(measurements, timesteps, threshold)`.
The initial slope `(m[1]-m[0])/(t[1]-t[0])` raises IndexError when the
window has fewer than two samples (Python evaluates `measurements[1]`
first); the loop then runs over `range(1, len(measurements))`. -/
def drift (measurements timesteps : List ℚ) (threshold : ℚ) :
    Except PyErr Bool := do
  let m1 ← pyGet measurements 1
  let m0 ← pyGet measurements 0
  let t1 ← pyGet timesteps 1
  let t0 ← pyGet timesteps 0
  driftLoop threshold measurements timesteps
    (List.range' 1 (measurements.length - 1)) ((m1 - m0) / (t1 - t0)) false

/-- The i-th consecutive slope `(m[i]-m[i-1])/(t[i]-t[i-1])`, as the code
computes it (meaningful for `1 ≤ i < m.length`). -/
def slopeAt (m t : List ℚ) (i : ℕ) : ℚ :=
  (m.getD i 0 - m.getD (i - 1) 0) / (t.getD i 0 - t.getD (i - 1) 0)

/-- Indices `i ∈ [2, m.length)` at which the consecutive slope differs
from the immediately preceding one by more than the threshold. -/
def slopeChangeIdxs (m t : List ℚ) (threshold : ℚ) : List ℕ :=
  (List.range' 2 (m.length - 2)).filter
    (fun i => pyAbs (slopeAt m t i - slopeAt m t (i - 1)) > threshold)

/-- The number of slope-change indices in the suffix `[k, m.length)`
(used to characterise the `drift` loop by induction). -/
def slopeChangesFrom (m t : List ℚ) (threshold : ℚ) (k : ℕ) : ℕ :=
  ((List.range' k (m.length - k)).filter
    (fun i => pyAbs (slopeAt m t i - slopeAt m t (i - 1)) > threshold)).length

/-- Claim-side companion of `drift`.  Modelled from the spec's words:
true iff the consecutive slope sequence "changes by more than threshold
exactly once across the window and then remains within threshold of the
*new* slope for the remainder".  The new slope is the slope at the single
change index; every later slope must stay within the threshold of it. -/
def driftClaim (m t : List ℚ) (threshold : ℚ) : Bool :=
  match PatternLibrary.slopeChangeIdxs m t threshold with
  | [i0] =>
      (List.range' i0 (m.length - i0)).all
        (fun i => pyAbs (PatternLibrary.slopeAt m t i -
                         PatternLibrary.slopeAt m t i0) ≤ threshold)
  | _ => false

end PatternLibrary

/-! Matrix helpers.  A numpy m x n array is a list of m rows of length n;
`numCols` is `array.shape[1]` and `matCols` is `array.T` (the list of
columns), both for the rectangular arrays the engine actually handles. -/

/-- Column count (`data.shape[1]`) of a matrix given as a list of rows. -/
def numCols (M : List (List ℚ)) : ℕ := (M.headD []).length

/-- Transpose (`data.T`): the list of columns of a rectangular matrix. -/
def matCols (M : List (List ℚ)) : List (List ℚ) :=
  (List.range (numCols M)).map (fun j => M.map (fun row => row.getD j 0))

namespace CorrelationLibrary

/-- Arithmetic mean of a list of observations (numpy `mean`). -/
def mean (xs : List ℚ) : ℚ := xs.sum / (xs.length : ℚ)

/-- Sample covariance of two equally long observation vectors, with the
divisor N-1 used by `np.cov` (and hence by `np.corrcoef`).  The divisor
cancels inside the correlation coefficient, but is kept to mirror numpy. -/
def covRow (x y : List ℚ) : ℚ :=
  (((x.map (· - mean x)).zip (y.map (· - mean y))).map
      (fun p => p.1 * p.2)).sum / ((x.length : ℚ) - 1)

/-- One entry of a float correlation matrix.  `val c vp` denotes the real
number `c / sqrt vp` (with `vp > 0` wherever the engine produces it):
numpy computes `corrcoef[i][j] = cov(i,j) / (sqrt(cov(i,i)) * sqrt(cov(j,j)))`
and this embedding carries the numerator and the product of variances
exactly.  `nan` denotes the IEEE NaN that numpy produces for the 0/0 of a
zero-variance variable. -/
inductive CorrEntry where
  | nan : CorrEntry
  | val : ℚ → ℚ → CorrEntry
  deriving DecidableEq, Repr

/-- The real number denoted by a correlation entry (`none` for NaN). -/
noncomputable def CorrEntry.toReal : CorrEntry → Option ℝ
  | .nan => none
  | .val c vp => some ((c : ℝ) / Real.sqrt (vp : ℝ))

/-- The Pearson coefficient of two observation vectors as numpy computes
it: NaN when either variance vanishes (0/0 in floats), otherwise
`cov(x,y) / sqrt(var x * var y)`. -/
def pearsonEntry (x y : List ℚ) : CorrEntry :=
  if covRow x x = 0 ∨ covRow y y = 0 then .nan
  else .val (covRow x y) (covRow x x * covRow y y)

/-- Embedding of `CorrelationLibrary.pearson(input_matrix)`, that is of
`np.corrcoef(input_matrix, rowvar=True)`: with `rowvar=True` the ROWS of
the input are the variables and the columns are the observations, so the
result is a square matrix with one row/column per input ROW. -/
def pearson (M : List (List ℚ)) : List (List CorrEntry) :=
  M.map (fun x => M.map (fun y => pearsonEntry x y))

/-- `np.abs` on a correlation entry; the absolute value of NaN is NaN. -/
def CorrEntry.pyAbsE : CorrEntry → CorrEntry
  | .nan => .nan
  | .val c vp => .val (pyAbs c) vp

/-- The engine's NaN remapping (`correlations[nan_rows, nan_cols] = 1.`):
NaN becomes the float 1.0, here represented exactly as `1 / sqrt 1`. -/
def CorrEntry.nanToOne : CorrEntry → CorrEntry
  | .nan => .val 1 1
  | e => e

/-- The float comparison `entry > tau` used for thresholding, decided on
the exact representation: for `vp > 0`, `c / sqrt vp > tau` holds iff the
corresponding sign-and-square condition on rationals holds (proved below
as `gtQ_toReal`); a float comparison with NaN is always false. -/
def CorrEntry.gtQ : CorrEntry → ℚ → Bool
  | .nan, _ => false
  | .val c vp, tau =>
      if 0 ≤ c then decide (tau < 0) || decide (tau * tau * vp < c * c)
      else decide (tau < 0) && decide (c * c < tau * tau * vp)

/-- The two post-processing lines the engine applies to every correlation
matrix it computes: `np.abs(...)` followed by replacing NaN with 1.0. -/
def postCorrelations (M : List (List ℚ)) : List (List CorrEntry) :=
  (pearson M).map (fun row => row.map (fun e => e.pyAbsE.nanToOne))

end CorrelationLibrary

/-! Structural model (src/sfdd/structural_model.py). -/

/-- The two component-type constants of `ComponentTypeEnum`. -/
def ComponentTypeEnum.SENSOR : String := "sensor"

/-- See `ComponentTypeEnum.SENSOR`. -/
def ComponentTypeEnum.SUBSYSTEM : String := "subsystem"

/-- Embedding of `ComponentParams`: name, type and parent names of one
declared system component. -/
structure ComponentParams where
  name : String
  type : String
  parents : List String
  deriving DecidableEq, Repr

/-- A `networkx.DiGraph` as the engine uses it: nothing but its directed
edge list (nodes exist exactly when they occur in some edge, because the
code only ever calls `add_edge`). -/
structure DiGraph where
  edges : List (String × String)
  deriving DecidableEq, Repr

/-- The node set of the graph: every endpoint of an edge. -/
def DiGraph.nodes (g : DiGraph) : List String :=
  (g.edges.map Prod.fst ++ g.edges.map Prod.snd).dedup

/-- The direct predecessors of a node. -/
def DiGraph.parentsOf (g : DiGraph) (n : String) : List String :=
  (g.edges.filter (fun e => e.2 = n)).map Prod.fst

/-- One step of backward-reachability expansion: a set of nodes together
with all their direct predecessors. -/
def DiGraph.expandUp (g : DiGraph) (s : List String) : List String :=
  (s ++ s.flatMap g.parentsOf).dedup

/-- Embedding of `networkx.algorithms.dag.ancestors(G, source)`: all nodes
with a path to `source`, excluding `source` itself; raises NetworkXError
when `source` is not in the graph.  Backward reachability is computed by
iterating one-step expansion as many times as there are nodes, which
reaches the fixpoint (and terminates even on cyclic graphs, as the spec
requires of ancestor queries). -/
def DiGraph.ancestors (g : DiGraph) (source : String) :
    Except PyErr (List String) :=
  if source ∈ g.nodes then
    .ok (((g.expandUp)^[g.nodes.length] [source]).erase source)
  else
    .error .networkXError

/-- Embedding of `StructuralModel.__create_model(components)`: a plain
double loop of `add_edge(parent, component.name)`.  There is no failure
path and no validation of parent names anywhere in the source — an
undeclared parent silently becomes a fresh node of the graph. -/
def createModel (components : List ComponentParams) : DiGraph :=
  ⟨components.flatMap (fun comp => comp.parents.map (fun parent => (parent, comp.name)))⟩

/-- Loop of `StructuralModel.find_independent_sensors`: for each sensor of
the list, query its ancestors (which can raise NetworkXError) and keep it
when its ancestor set does not intersect the given one. -/
def findIndepAux (g : DiGraph) (sensorAncestors : List String) :
    List String → Except PyErr (List String)
  | [] => .ok []
  | other :: rest => do
      let otherAncestors ← g.ancestors other
      let tail ← findIndepAux g sensorAncestors rest
      if sensorAncestors.inter otherAncestors = [] then
        .ok (other :: tail)
      else
        .ok tail

/-- Embedding of `StructuralModel.find_independent_sensors(sensor,
sensor_list)`: the sensors of `sensor_list` whose ancestor sets are
disjoint from the ancestor set of `sensor`. -/
def findIndependentSensors (g : DiGraph) (sensor : String)
    (sensorList : List String) : Except PyErr (List String) := do
  let sensorAncestors ← g.ancestors sensor
  findIndepAux g sensorAncestors sensorList

def gTest : DiGraph := createModel
  [⟨"X", "subsystem", []⟩, ⟨"A", "sensor", ["X"]⟩,
   ⟨"C", "sensor", ["X"]⟩, ⟨"Y", "subsystem", []⟩, ⟨"B", "sensor", ["Y"]⟩]

/-! The fault detection engine (src/sfdd/sfdd.py).  Python dictionaries
keyed by sensor name become total functions from String; the engine only
ever reads keys it has written (all sensor names), so no KeyError model
is needed.  Python sets of indices become lists, used only through
membership and emptiness of intersections. -/

open CorrelationLibrary in
/-- The state of an `SFDD` object: the constructor arguments plus the
mutable dictionaries of the instance. -/
structure SFDD where
  sensorNames : List String
  correlationThreshold : ℚ
  patternCount : ℕ
  independentSensors : String → List ℕ
  correlatedSensors : String → List String
  correlatedSensorIndices : String → List ℕ
  sensorPatternPairs : String → List (ℕ × String × ℕ)
  sensorWorking : String → Bool

/-- Embedding of `SFDD.__init__`: for every sensor the structural model is
queried for its independent sensors (which raises NetworkXError if some
queried node is missing from the graph, aborting construction), and the
resulting names are turned into indices into the sensor list; the
correlation dictionaries start empty and every sensor starts as working. -/
def SFDD.init (sensorNames : List String) (g : DiGraph) (tau : ℚ)
    (patternCount : ℕ) : Except PyErr SFDD := do
  let indep ← sensorNames.foldlM
    (fun acc sensor => do
      let indepSensors ← findIndependentSensors g sensor sensorNames
      pure (fun x => if x = sensor then
              indepSensors.map (fun other => sensorNames.findIdx (fun n => n = other))
            else acc x))
    (fun _ => ([] : List ℕ))
  pure { sensorNames := sensorNames
         correlationThreshold := tau
         patternCount := patternCount
         independentSensors := indep
         correlatedSensors := fun _ => []
         correlatedSensorIndices := fun _ => []
         sensorPatternPairs := fun _ => []
         sensorWorking := fun _ => true }

/-- Embedding of `SFDD.__calculate_patterns(data, timestamps)`: for each
COLUMN of the window, row 0 of the activation row is `stuck_at` and row 1
is `drift`, both with their Python default threshold 1e-3; remaining
pattern slots (when `pattern_count > 2`) stay False as in `np.zeros`.
The error cases mirror Python evaluation order: a pattern predicate can
raise IndexError itself, and the assignments `patterns[i,0]` and
`patterns[i,1]` raise IndexError when `pattern_count` is 0 or 1. -/
def calculatePatterns (patternCount : ℕ) (data : List (List ℚ))
    (timestamps : List ℚ) : Except PyErr (List (List Bool)) :=
  (matCols data).mapM (fun col => do
    let s ← PatternLibrary.stuck_at col (1/1000)
    if patternCount < 1 then .error .indexError
    else do
      let d ← PatternLibrary.drift col timestamps (1/1000)
      if patternCount < 2 then .error .indexError
      else pure ([s, d] ++ List.replicate (patternCount - 2) false))

open CorrelationLibrary in
/-- The indices selected by `np.where(correlations[i] > threshold)[0]`. -/
def basicCorrelatedIdx (corrRow : List CorrEntry) (threshold : ℚ) : List ℕ :=
  corrRow.enum.filterMap
    (fun pair => if pair.2.gtQ threshold then some pair.1 else none)

open CorrelationLibrary in
/-- Embedding of `SFDD.learn_correlations(data, file)` up to the final
yaml dump (serialisation is outside the core): the post-processed
correlation matrix of the WHOLE training set is computed, and for every i
in `range(correlations.shape[0])` the names/indices of the other columns
above threshold are appended to the dictionaries under `sensor_names[i]`
— an IndexError as soon as some index reaches the length of the sensor
list. -/
def learnCorrelations (sf : SFDD) (data : List (List ℚ)) :
    Except PyErr SFDD := do
  let correlations := postCorrelations data
  (List.range correlations.length).foldlM
    (fun acc i => do
      let sensorName ← pyGet acc.sensorNames i
      let corrRow ← pyGet correlations i
      let cIdx := basicCorrelatedIdx corrRow acc.correlationThreshold
      let newPairs ← cIdx.foldlM
        (fun pairs idx =>
          if i ≠ idx then do
            let nm ← pyGet acc.sensorNames idx
            pure (pairs ++ [(nm, idx)])
          else pure pairs)
        ([] : List (String × ℕ))
      pure { acc with
        correlatedSensors := fun x =>
          if x = sensorName then acc.correlatedSensors sensorName ++ newPairs.map Prod.fst
          else acc.correlatedSensors x
        correlatedSensorIndices := fun x =>
          if x = sensorName then acc.correlatedSensorIndices sensorName ++ newPairs.map Prod.snd
          else acc.correlatedSensorIndices x })
    sf

/-- The indices of the True entries of a boolean activation row
(`np.where(patterns[i])[0]`). -/
def activeIdxs (row : List Bool) : List ℕ :=
  row.enum.filterMap (fun pair => if pair.2 then some pair.1 else none)

/-- The sensor indices whose activation row is True in column `p`
(`np.where(patterns[:, pattern_idx])[0]`). -/
def patternColumn (patterns : List (List Bool)) (p : ℕ) : List ℕ :=
  patterns.enum.filterMap
    (fun pair => if pair.2.getD p false then some pair.1 else none)

/-- The per-pattern test of `monitor_sensors_basic`: the intersection of
the correlated indices, the indices exhibiting pattern `p`, and the
independence set is empty (the branch in which the working flag is
toggled). -/
def uncorroborated (corrIdx : List ℕ) (patterns : List (List Bool))
    (indep : List ℕ) (p : ℕ) : Bool :=
  ((corrIdx.inter (patternColumn patterns p)).inter indep) = []

/-- The inner pattern loop of `monitor_sensors_basic` as a flag
transformer: on the first pattern whose test is empty the flag is negated
and the loop breaks; otherwise the flag is set to True and the loop
continues. -/
def flagUpdate (test : ℕ → Bool) : List ℕ → Bool → Bool
  | [], flag => flag
  | p :: rest, flag =>
      if test p then !flag else flagUpdate test rest true

/-- `window_size` normalisation at the top of `monitor_sensors_basic`:
the Python default -1 selects `int(rows / 2)`.  (Callers pass -1 or a
non-negative size; other negative values are not used by the program.) -/
def basicWindowSize (rows : ℕ) (windowSize : ℤ) : ℕ :=
  if windowSize = -1 then rows / 2 else windowSize.toNat

open CorrelationLibrary in
/-- The post-processed correlation matrix `monitor_sensors_basic` builds
from the leading `w` rows of the call window. -/
def basicCorrelations (data : List (List ℚ)) (w : ℕ) : List (List CorrEntry) :=
  postCorrelations (data.take w)

/-- The pattern activation matrix `monitor_sensors_basic` builds from the
remaining rows of the call window (the full timestamp list is passed
unsliced, exactly as in the source). -/
def basicPatterns (patternCount : ℕ) (data : List (List ℚ)) (w : ℕ)
    (timestamps : List ℚ) : Except PyErr (List (List Bool)) :=
  calculatePatterns patternCount (data.drop w) timestamps

open CorrelationLibrary in
/-- The body of the per-sensor loop of `monitor_sensors_basic`, giving the
new value of the sensor's working flag: a sensor without active pattern
is forced to True; otherwise the correlation row `correlations[i]` is
read (IndexError when the correlation matrix is shorter than the sensor
list) and the pattern loop updates the flag. -/
def sensorStep (tau : ℚ) (indep : List ℕ)
    (correlations : List (List CorrEntry)) (patterns : List (List Bool))
    (i : ℕ) (flag : Bool) : Except PyErr Bool := do
  let row ← pyGet patterns i
  if row.any id = false then
    pure true
  else do
    let corrRow ← pyGet correlations i
    pure (flagUpdate
      (fun p => uncorroborated (basicCorrelatedIdx corrRow tau) patterns indep p)
      (activeIdxs row) flag)

/-- Embedding of `SFDD.monitor_sensors_basic(data, timestamps,
window_size)`: the window is split into a leading correlation part and a
trailing investigation part, the post-processed correlation matrix and
the activation matrix are computed, each sensor's persistent working flag
is updated in sensor-list order, and the call returns the sensors whose
flag is False together with the new engine state. -/
def monitorSensorsBasic (sf : SFDD) (data : List (List ℚ))
    (timestamps : List ℚ) (windowSize : ℤ) :
    Except PyErr (List String × SFDD) := do
  let w := basicWindowSize data.length windowSize
  let correlations := basicCorrelations data w
  let patterns ← basicPatterns sf.patternCount data w timestamps
  let working ← sf.sensorNames.enum.foldlM
    (fun wk pair => do
      let flag ← sensorStep sf.correlationThreshold
        (sf.independentSensors pair.2) correlations patterns pair.1 (wk pair.2)
      pure (fun x => if x = pair.2 then flag else wk x))
    sf.sensorWorking
  let anomalousSensors := sf.sensorNames.filter (fun s => !(working s))
  pure (anomalousSensors, { sf with sensorWorking := working })

/-- N successive calls of `monitor_sensors_basic` on the same inputs,
returning the anomalous-sensor list of the last call and the final state
(`([], sf)` for N = 0, before any call). -/
def monitorBasicRuns (data : List (List ℚ)) (timestamps : List ℚ)
    (windowSize : ℤ) (sf : SFDD) : ℕ → Except PyErr (List String × SFDD)
  | 0 => .ok ([], sf)
  | n + 1 => do
      let prev ← monitorBasicRuns data timestamps windowSize sf n
      monitorSensorsBasic prev.2 data timestamps windowSize

/-- Inner loop body of `find_normal_patterns`: for one correlated sensor
index, skip it unless it is independent and currently exhibits a pattern,
otherwise record the triple (own active pattern, other sensor's name,
other sensor's active pattern) if it is not yet present. -/
def pairStep (sf : SFDD) (patterns : List (List Bool)) (active : ℕ)
    (sensor : String) (pp : String → List (ℕ × String × ℕ)) (sensorIdx : ℕ) :
    Except PyErr (String → List (ℕ × String × ℕ)) :=
  if sensorIdx ∈ sf.independentSensors sensor then do
    let otherRow ← pyGet patterns sensorIdx
    if otherRow.any id = false then pure pp
    else do
      let otherActive := (activeIdxs otherRow).headD 0
      let corrName ← pyGet sf.sensorNames sensorIdx
      let tup := (active, corrName, otherActive)
      if tup ∈ pp sensor then pure pp
      else pure (fun x => if x = sensor then pp sensor ++ [tup] else pp x)
  else pure pp

/-- Per-window body of `find_normal_patterns`: compute the activation
matrix of the window, then for every sensor with an active pattern run
the inner loop over its learned-correlated sensor indices.  Patterns are
treated as mutually exclusive here: only the FIRST active index
(`np.where(...)[0][0]`) is used. -/
def windowStep (sf : SFDD) (window : List (List ℚ)) (timestamps : List ℚ)
    (pp0 : String → List (ℕ × String × ℕ)) :
    Except PyErr (String → List (ℕ × String × ℕ)) := do
  let patterns ← calculatePatterns sf.patternCount window timestamps
  sf.sensorNames.enum.foldlM
    (fun pp pair => do
      let row ← pyGet patterns pair.1
      if row.any id = false then pure pp
      else
        (sf.correlatedSensorIndices pair.2).foldlM
          (pairStep sf patterns ((activeIdxs row).headD 0) pair.2) pp)
    pp0

/-- Embedding of `SFDD.find_normal_patterns(data, timestamps, file,
window_size)` up to the final yaml dump: the pattern-pair entries of all
sensors are reset to empty, then the loop runs over the window anchors
`range(data.shape[0] - window_size)` with the window `data[i:i+ws]` and —
exactly as in the source — the UNSLICED timestamp list. -/
def findNormalPatterns (sf : SFDD) (data : List (List ℚ))
    (timestamps : List ℚ) (windowSize : ℕ) : Except PyErr SFDD := do
  let reset := fun x =>
    if x ∈ sf.sensorNames then [] else sf.sensorPatternPairs x
  let pairs ← (List.range (data.length - windowSize)).foldlM
    (fun pp i => windowStep sf ((data.drop i).take windowSize) timestamps pp)
    reset
  pure { sf with sensorPatternPairs := pairs }

/-- Claim-side companion of `findNormalPatterns`.  Modelled from the
spec: the window slides over "every valid start index i (every i with
i + window_size ≤ number of rows)", and each window's activation matrix
is computed "from that window's rows together with the timestamps
aligned one-per-row to those same rows" — so the anchor range has one
more element and the timestamp list is sliced like the data. -/
def findNormalPatternsClaim (sf : SFDD) (data : List (List ℚ))
    (timestamps : List ℚ) (windowSize : ℕ) : Except PyErr SFDD := do
  let reset := fun x =>
    if x ∈ sf.sensorNames then [] else sf.sensorPatternPairs x
  let pairs ← (List.range (data.length - windowSize + 1)).foldlM
    (fun pp i => windowStep sf ((data.drop i).take windowSize)
      ((timestamps.drop i).take windowSize) pp)
    reset
  pure { sf with sensorPatternPairs := pairs }

/-- Amended claim-side companion of `findNormalPatterns`: the processed
windows are exactly the slices `data[i:i+ws]` for the anchors i with
`i + ws < rows` (one fewer than all valid anchors), and every window is
paired with the same global timestamp list. -/
def findNormalPatternsAmended (sf : SFDD) (data : List (List ℚ))
    (timestamps : List ℚ) (windowSize : ℕ) : Except PyErr SFDD := do
  let reset := fun x =>
    if x ∈ sf.sensorNames then [] else sf.sensorPatternPairs x
  let windows := (List.range (data.length - windowSize)).map
    (fun i => (data.drop i).take windowSize)
  let pairs ← windows.foldlM
    (fun pp win => windowStep sf win timestamps pp) reset
  pure { sf with sensorPatternPairs := pairs }

open CorrelationLibrary in
/-- Claim-side pairwise correlation.  Modelled from the spec: "the
absolute-value Pearson correlation coefficient between every pair of
COLUMNS (sensors) over the given row window, sensors as variables" — a
sensor-count x sensor-count matrix over the columns of the window. -/
def specPairwiseCorrelation (M : List (List ℚ)) : List (List CorrEntry) :=
  (matCols M).map (fun x => (matCols M).map (fun y => (pearsonEntry x y).pyAbsE))

open CorrelationLibrary in
/-- Claim-side verdict of basic monitoring.  Modelled from the spec: with
the correlation sub-window correlated COLUMN-wise (NaN remapped to 1.0
before thresholding), a sensor with at least one active pattern is
anomalous iff for EVERY active pattern the intersection of its correlated
sensors, the sensors exhibiting that pattern, and its independence set is
empty. -/
def specAnomalousSensors (sf : SFDD) (data : List (List ℚ))
    (timestamps : List ℚ) (windowSize : ℤ) : Except PyErr (List String) := do
  let w := basicWindowSize data.length windowSize
  let corrM := (specPairwiseCorrelation (data.take w)).map
    (fun row => row.map CorrEntry.nanToOne)
  let patterns ← calculatePatterns sf.patternCount (data.drop w) timestamps
  pure ((sf.sensorNames.enum.filter (fun pair =>
      ((patterns.getD pair.1 []).any id) &&
      (activeIdxs (patterns.getD pair.1 [])).all (fun p =>
        uncorroborated
          (basicCorrelatedIdx (corrM.getD pair.1 []) sf.correlationThreshold)
          patterns (sf.independentSensors pair.2) p))).map Prod.snd)

/-- The test applied to pattern index `p` of the sensor with index `i`
and name `sensor` inside the pattern loop of `monitor_sensors_basic`,
phrased against the named sub-computations of the call (used to state
the stateful-monitoring claim): true iff the code's triple intersection
for that pattern is empty, i.e. the detection is uncorroborated. -/
def basicUncorrobTest (sf : SFDD) (data : List (List ℚ)) (windowSize : ℤ)
    (patterns : List (List Bool)) (sensor : String) (i p : ℕ) : Bool :=
  uncorroborated
    (basicCorrelatedIdx
      ((basicCorrelations data (basicWindowSize data.length windowSize)).getD i [])
      sf.correlationThreshold)
    patterns (sf.independentSensors sensor) p

/-! Concrete inputs used by the claim theorems, their counterexamples and
their witnesses. -/

/-- An engine over sensors A and B only (used against the correlation
learning procedure). -/
def sfLearn : SFDD where
  sensorNames := ["A", "B"]
  correlationThreshold := 4/5
  patternCount := 2
  independentSensors := fun _ => []
  correlatedSensors := fun _ => []
  correlatedSensorIndices := fun _ => []
  sensorPatternPairs := fun _ => []
  sensorWorking := fun _ => true

/-- A 3-row, 2-sensor training window. -/
def dataRows3 : List (List ℚ) := [[0, 0], [1, 2], [2, 1]]

/-- The engine state produced by construction over the structural model
with subsystem X feeding sensors A and C and subsystem Y feeding sensor
B: A and B are independent, C shares X with A. -/
def sfBasic : SFDD where
  sensorNames := ["A", "B", "C"]
  correlationThreshold := 4/5
  patternCount := 2
  independentSensors := fun x => if x = "A" then [1] else if x = "B" then [0, 2] else if x = "C" then [1] else []
  correlatedSensors := fun _ => []
  correlatedSensorIndices := fun _ => []
  sensorPatternPairs := fun _ => []
  sensorWorking := fun _ => true

/-- A 4-row window for basic monitoring with `window_size = 2`: the two
correlation rows are (0,1,0) and (0,0,1) (every pair of sensor COLUMNS of
this sub-window is correlated in absolute value above 0.8, while the
row-correlation of the two time rows is only 0.5); the two investigation
rows make A and B stuck and C pattern-free. -/
def dataBasic : List (List ℚ) := [[0, 1, 0], [0, 0, 1], [10, 20, 0], [10, 20, 9]]

/-- Timestamps for `dataBasic`. -/
def tsBasic : List ℚ := [0, 1, 2, 3]

/-- A one-sensor engine whose single sensor has an empty independence
set, so that any detected pattern is necessarily uncorroborated. -/
def sfOne : SFDD where
  sensorNames := ["A"]
  correlationThreshold := 4/5
  patternCount := 2
  independentSensors := fun _ => []
  correlatedSensors := fun _ => []
  correlatedSensorIndices := fun _ => []
  sensorPatternPairs := fun _ => []
  sensorWorking := fun _ => true

/-- A constant 4-row window for the one-sensor engine: the investigation
half always reports stuck-at, uncorroborated. -/
def dataOne : List (List ℚ) := [[0], [0], [0], [0]]

/-- Timestamps for `dataOne`. -/
def tsOne : List ℚ := [0, 1, 2, 3]

/-- A two-sensor engine whose sensors are mutually independent and
mutually learned-correlated (the state `find_normal_patterns` reads). -/
def sfPair : SFDD where
  sensorNames := ["A", "B"]
  correlationThreshold := 4/5
  patternCount := 2
  independentSensors := fun x => if x = "A" then [1] else if x = "B" then [0] else []
  correlatedSensors := fun x => if x = "A" then ["B"] else if x = "B" then ["A"] else []
  correlatedSensorIndices := fun x => if x = "A" then [1] else if x = "B" then [0] else []
  sensorPatternPairs := fun _ => []
  sensorWorking := fun _ => true

/-- Three rows of training data whose LAST window of size 2 (anchored at
row 1) is stuck for both sensors while the first window shows no pattern
at all. -/
def dataPair : List (List ℚ) := [[0, 0], [10, 10], [10, 10]]

/-- Timestamps for `dataPair`. -/
def tsPair : List ℚ := [0, 1, 2]

/-- A 2-row, 3-sensor window whose first sensor column (0,0) is constant
while its time rows are not. -/
def dataConstCol : List (List ℚ) := [[0, 1, 0], [0, 0, 1]]

/-- Measurements with consecutive slopes 0, 1, 1.0009, 1.0018: exactly one
consecutive slope step exceeds 1e-3, but the slope then creeps away from
the post-change slope by more than 1e-3. -/
def mDriftCreep : List ℚ := [0, 0, 1, 20009/10000, 30027/10000]

/-- Timestamps for `mDriftCreep`. -/
def tsDriftCreep : List ℚ := [0, 1, 2, 3, 4]

/-- A component list declaring a single sensor whose parent name "ghost"
is never declared as a component. -/
def compsGhost : List ComponentParams := [⟨"c", "sensor", ["ghost"]⟩]

/-- A component list with an isolated sensor: declared with no parents
and never referenced as a parent. -/
def compsLonely : List ComponentParams :=
  [⟨"lonely", "sensor", []⟩, ⟨"A", "sensor", ["X"]⟩]

/-- The sensor list of `compsLonely` in declaration order. -/
def namesLonely : List String := ["A", "lonely"]


/-- A two-sensor engine whose sensors are mutually independent (used for
the mixed-pattern behaviour of basic monitoring). -/
def sfMix : SFDD where
  sensorNames := ["A", "B"]
  correlationThreshold := 4/5
  patternCount := 2
  independentSensors := fun x => if x = "A" then [1] else if x = "B" then [0] else []
  correlatedSensors := fun _ => []
  correlatedSensorIndices := fun _ => []
  sensorPatternPairs := fun _ => []
  sensorWorking := fun _ => true

/-- A 5-row window for basic monitoring with `window_size = 2`: the two
correlation rows make every correlation coefficient 1.0, and the three
investigation rows make sensor A BOTH stuck-at (steps of exactly 1e-3)
and drifting (slope changes from -1e-3 to 1e-3), while sensor B only
drifts — so A's stuck-at pattern is uncorroborated while A's drift
pattern is corroborated by the independent, correlated sensor B. -/
def dataMix : List (List ℚ) := [[0, 0], [1, 1], [0, 0], [-1/1000, 5], [0, 11]]

/-- Timestamps for `dataMix`. -/
def tsMix : List ℚ := [0, 1, 2, 3, 4]

/-! Supporting lemmas. -/

theorem pyGet_ok_iff (xs : List α) (i : ℕ) (x : α) :
    pyGet xs i = .ok x ↔ xs.get? i = some x := by
  unfold pyGet
  cases h : xs.get? i <;> simp_all

theorem pyGet_lt (xs : List α) (i : ℕ) (d : α) (h : i < xs.length) :
    pyGet xs i = .ok (xs.getD i d) := by
  unfold pyGet
  rw [List.get?_eq_getElem?, List.getElem?_eq_getElem h,
      List.getD_eq_getElem?_getD, List.getElem?_eq_getElem h]
  rfl

theorem pyAbs_eq_abs (x : ℚ) : pyAbs x = |x| := by
  unfold pyAbs
  rcases lt_or_ge x 0 with h | h
  · rw [if_pos h, abs_of_neg h]
  · rw [if_neg (not_lt.mpr h), abs_of_nonneg h]

theorem list_inter_eq_nil_iff {α : Type _} [DecidableEq α] (l1 l2 : List α) :
    l1.inter l2 = [] ↔ ∀ x, x ∈ l1 → x ∉ l2 := by
  rw [List.eq_nil_iff_forall_not_mem]
  constructor
  · intro h x hx1 hx2
    exact h x (List.mem_inter_iff.mpr ⟨hx1, hx2⟩)
  · intro h x hx
    rcases List.mem_inter_iff.mp hx with ⟨h1, h2⟩
    exact h x h1 h2

theorem list_inter_eq_nil_comm {α : Type _} [DecidableEq α] (l1 l2 : List α) :
    l1.inter l2 = [] ↔ l2.inter l1 = [] := by
  rw [list_inter_eq_nil_iff, list_inter_eq_nil_iff]
  constructor
  · intro h x hx2 hx1
    exact h x hx1 hx2
  · intro h x hx1 hx2
    exact h x hx2 hx1

open CorrelationLibrary in
theorem gtQ_toReal (c vp tau : ℚ) (h : 0 < vp) :
    (CorrEntry.val c vp).gtQ tau = true ↔
      (tau : ℝ) < (c : ℝ) / Real.sqrt (vp : ℝ) := by
  have hvR : (0:ℝ) < (vp : ℝ) := by exact_mod_cast h
  have hS : (0:ℝ) < Real.sqrt (vp : ℝ) := Real.sqrt_pos.mpr hvR
  have hS2 : Real.sqrt (vp : ℝ) * Real.sqrt (vp : ℝ) = (vp : ℝ) :=
    Real.mul_self_sqrt hvR.le
  rw [lt_div_iff₀ hS]
  set S := Real.sqrt (vp : ℝ) with hSdef
  show (if 0 ≤ c then decide (tau < 0) || decide (tau * tau * vp < c * c)
        else decide (tau < 0) && decide (c * c < tau * tau * vp)) = true ↔
      (tau : ℝ) * S < (c : ℝ)
  split_ifs with hc
  · have hcR : (0:ℝ) ≤ (c : ℝ) := by exact_mod_cast hc
    simp only [Bool.or_eq_true, decide_eq_true_eq]
    constructor
    · rintro (ht | hlt)
      · have htR : (tau : ℝ) < 0 := by exact_mod_cast ht
        nlinarith
      · have hltR : (tau : ℝ) * (tau : ℝ) * (vp : ℝ) < (c : ℝ) * (c : ℝ) := by
          exact_mod_cast hlt
        rcases lt_or_ge (tau : ℝ) 0 with ht | ht
        · nlinarith
        · nlinarith [mul_nonneg ht hS.le]
    · intro hlt
      rcases lt_or_ge tau 0 with ht | ht
      · exact Or.inl ht
      · have htR : (0:ℝ) ≤ (tau : ℝ) := by exact_mod_cast ht
        refine Or.inr ?_
        have : (tau : ℝ) * (tau : ℝ) * (vp : ℝ) < (c : ℝ) * (c : ℝ) := by
          nlinarith [mul_nonneg htR hS.le]
        exact_mod_cast this
  · push_neg at hc
    have hcR : (c : ℝ) < 0 := by exact_mod_cast hc
    simp only [Bool.and_eq_true, decide_eq_true_eq]
    constructor
    · rintro ⟨ht, hlt⟩
      have htR : (tau : ℝ) < 0 := by exact_mod_cast ht
      have hltR : (c : ℝ) * (c : ℝ) < (tau : ℝ) * (tau : ℝ) * (vp : ℝ) := by
        exact_mod_cast hlt
      nlinarith [mul_neg_of_neg_of_pos htR hS]
    · intro hlt
      have htS : (tau : ℝ) * S < 0 := lt_trans hlt hcR
      have htR : (tau : ℝ) < 0 := by
        by_contra hge
        push_neg at hge
        nlinarith [mul_nonneg hge hS.le]
      have hlt2 : (c : ℝ) * (c : ℝ) < (tau : ℝ) * (tau : ℝ) * (vp : ℝ) := by
        nlinarith
      constructor
      · exact_mod_cast htR
      · exact_mod_cast hlt2

open CorrelationLibrary in
theorem nanToOne_toReal :
    (CorrEntry.nan.nanToOne).toReal = some (1 : ℝ) := by
  show some (((1:ℚ) : ℝ) / Real.sqrt ((1:ℚ) : ℝ)) = some (1 : ℝ)
  rw [Rat.cast_one, Real.sqrt_one, div_one]

/-! Claim C1. -/

unseal Rat.mul Rat.add Rat.sub Rat.inv in
open CorrelationLibrary in
/-- C1: the claim states that the engine's correlation computation
produces a sensor-count x sensor-count matrix of absolute Pearson
coefficients between sensor COLUMNS.  The code calls
`np.corrcoef(input_matrix, rowvar=True)`, whose variables are the time
ROWS: on the 3-row, 2-sensor window `dataRows3` it yields a 3 x 3 matrix
(one row per time sample) instead of the 2 x 2 matrix the claim
prescribes (the claim-side column-wise computation
`specPairwiseCorrelation` has 2 rows of 2 entries), and consequently
`learn_correlations` — which indexes the matrix rows by sensor — raises
an IndexError on this window. -/
theorem c1_rowvar_code_bug :
    (pearson dataRows3).map List.length = [3, 3, 3] ∧
    numCols dataRows3 = 2 ∧
    (specPairwiseCorrelation dataRows3).map List.length = [2, 2] ∧
    learnCorrelations sfLearn dataRows3 = .error .indexError := by
  refine ⟨by rfl, by rfl, by rfl, by rfl⟩

/-! Claim C2. -/

unseal Rat.mul Rat.add Rat.sub Rat.inv in
/-- C2: the claim describes basic monitoring as flagging sensor i
anomalous iff no structurally-independent, correlated sensor corroborates
an active pattern, with the correlated set read off the sensor-wise
correlation matrix.  On `dataBasic` (sensors A and B independent, both
column-correlated above 0.8 over the correlation sub-window, both stuck
in the investigation sub-window) the claim-side verdict
`specAnomalousSensors` exonerates every sensor, but the code — whose
correlation matrix correlates the two time rows of the sub-window
(coefficient 0.5) and therefore finds no correlated corroborator — flags
A and B. -/
theorem c2_basic_monitoring_code_bug :
    (monitorSensorsBasic sfBasic dataBasic tsBasic 2).map Prod.fst =
      .ok ["A", "B"] ∧
    specAnomalousSensors sfBasic dataBasic tsBasic 2 = .ok [] := by
  refine ⟨by rfl, by rfl⟩

/-! Claim C8. -/

unseal Rat.mul Rat.add Rat.sub Rat.inv in
open CorrelationLibrary in
/-- C8: the claim states that NaN coefficients arising from zero-variance
(constant) sensor COLUMNS are remapped to 1.0, so a constant sensor is
treated as maximally correlated with every sensor.  On `dataConstCol`
(sensor column 0 constant, time rows not constant) the claim-side
column-wise matrix indeed has a NaN at entry (0,1), but the code's
row-variable matrix contains no NaN at all, is 2 x 2 instead of
3 x 3, and after the engine's post-processing its entry (0,1) denotes
the real value 1/2 — the constant sensor is not treated as maximally
correlated (and sensor index 2 has no row in the matrix at all). -/
theorem c8_nan_remap_code_bug :
    ((specPairwiseCorrelation dataConstCol).getD 0 []).get? 1 =
      some CorrEntry.nan ∧
    (pearson dataConstCol).flatten.filter (fun e => e == CorrEntry.nan) = [] ∧
    (postCorrelations dataConstCol).length = 2 ∧
    numCols dataConstCol = 3 ∧
    ((postCorrelations dataConstCol).getD 0 []).get? 1 =
      some (CorrEntry.val (1/6) (1/9)) ∧
    (CorrEntry.val (1/6) (1/9)).toReal = some ((1:ℝ)/2) ∧
    ((1:ℝ)/2 < 1) := by
  refine ⟨by rfl, by rfl, by rfl, by rfl, by rfl, ?_, by norm_num⟩
  show some (((1/6 : ℚ) : ℝ) / Real.sqrt ((1/9 : ℚ) : ℝ)) = some ((1:ℝ)/2)
  have h9 : ((1/9 : ℚ) : ℝ) = (1/3 : ℝ) * (1/3 : ℝ) := by push_cast; norm_num
  rw [h9, Real.sqrt_mul_self (by norm_num)]
  push_cast
  norm_num

/-! Claim C4. -/

/-- C4 counterexample: constructing the structural model from a
description whose only component references the undeclared parent
"ghost" does not fail — `__create_model` is a plain loop of `add_edge`
calls with no failure path (no `ConfigurationError` exists anywhere in
the repository) — and the unknown parent silently becomes a node of the
resulting graph. -/
theorem c4_unknown_parent_counterexample :
    createModel compsGhost = ⟨[("ghost", "c")]⟩ ∧
    "ghost" ∈ (createModel compsGhost).nodes := by
  refine ⟨by rfl, by decide⟩

/-- C4 amended: constructing the structural model from a description that
references an unknown parent name does not abort; every referenced parent
name — declared or not — ends up as a node of the graph. -/
theorem c4_unknown_parent_amended (comps : List ComponentParams)
    (c : ComponentParams) (p : String) (hc : c ∈ comps)
    (hp : p ∈ c.parents) :
    p ∈ (createModel comps).nodes := by
  unfold createModel DiGraph.nodes
  rw [List.mem_dedup, List.mem_append]
  refine Or.inl ?_
  rw [List.mem_map]
  refine ⟨(p, c.name), ?_, rfl⟩
  rw [List.mem_flatMap]
  exact ⟨c, hc, List.mem_map.mpr ⟨p, hp, rfl⟩⟩

/-- Witness for `c4_unknown_parent_amended` at the concrete description
`compsGhost`. -/
theorem c4_unknown_parent_amended_witness :
    "ghost" ∈ (createModel compsGhost).nodes :=
  c4_unknown_parent_amended compsGhost ⟨"c", "sensor", ["ghost"]⟩ "ghost"
    (by decide) (by decide)

/-! Claim C7. -/

/-- C7 counterexample: `drift` on the one-sample window `[5]` fails with
a plain IndexError (the out-of-range access `measurements[1]`), not with
the `InsufficientDataError` named by the claim — no such exception class
exists in the repository, so the code cannot raise it. -/
theorem c7_short_window_counterexample :
    PatternLibrary.drift [5] [0] (1/1000) = .error .indexError ∧
    (PyErr.indexError == PyErr.insufficientDataError) = false := by
  refine ⟨by rfl, by rfl⟩

/-- C7 amended: calling `drift` on a window of length < 2 fails with an
IndexError (an uncaught out-of-range access, surfaced to the caller). -/
theorem c7_short_window_amended (m t : List ℚ) (threshold : ℚ)
    (h : m.length < 2) :
    PatternLibrary.drift m t threshold = .error .indexError := by
  match m with
  | [] => rfl
  | [x] => rfl
  | x :: y :: rest => simp [List.length] at h; omega

/-- Witness for `c7_short_window_amended` at the concrete window `[5]`. -/
theorem c7_short_window_amended_witness :
    ([(5:ℚ)].length < 2) ∧
    PatternLibrary.drift [5] [0] (1/1000) = .error .indexError :=
  ⟨by decide, c7_short_window_amended [5] [0] (1/1000) (by decide)⟩

/-! Claim C5. -/

unseal Rat.mul Rat.add Rat.sub Rat.inv in
/-- C5 counterexample: on `mDriftCreep` (consecutive slopes 0, 1, 1.0009,
1.0018 with threshold 1e-3) the code returns True — the slope steps after
the single change stay within the threshold of their immediate
predecessor — although the claim's characterisation is False there: the
slope does NOT remain within the threshold of the new slope 1 for the
remainder (the last slope differs from it by 0.0018). -/
theorem c5_drift_counterexample :
    PatternLibrary.drift mDriftCreep tsDriftCreep (1/1000) = .ok true ∧
    PatternLibrary.driftClaim mDriftCreep tsDriftCreep (1/1000) = false := by
  refine ⟨by rfl, by rfl⟩

theorem slopeChangesFrom_succ (m t : List ℚ) (th : ℚ) (k : ℕ)
    (hkm : k < m.length) :
    PatternLibrary.slopeChangesFrom m t th k =
      (if pyAbs (PatternLibrary.slopeAt m t k -
                 PatternLibrary.slopeAt m t (k - 1)) > th then 1 else 0) +
        PatternLibrary.slopeChangesFrom m t th (k + 1) := by
  unfold PatternLibrary.slopeChangesFrom
  rw [show m.length - k = (m.length - (k + 1)) + 1 by omega, List.range'_succ]
  by_cases hc : pyAbs (PatternLibrary.slopeAt m t k -
      PatternLibrary.slopeAt m t (k - 1)) > th
  · simp [List.filter_cons, hc]
    omega
  · simp [List.filter_cons, hc]

theorem driftLoop_char (m t : List ℚ) (th : ℚ) (hth : 0 ≤ th)
    (ht : m.length ≤ t.length) :
    ∀ n k, 2 ≤ k → k + n = m.length → ∀ changed,
    PatternLibrary.driftLoop th m t (List.range' k n)
      (PatternLibrary.slopeAt m t (k - 1)) changed =
      .ok (if changed then decide (PatternLibrary.slopeChangesFrom m t th k = 0)
           else decide (PatternLibrary.slopeChangesFrom m t th k = 1)) := by
  intro n
  induction n with
  | zero =>
    intro k hk hkn changed
    have h0 : PatternLibrary.slopeChangesFrom m t th k = 0 := by
      unfold PatternLibrary.slopeChangesFrom
      rw [show m.length - k = 0 by omega]
      rfl
    cases changed <;> simp [PatternLibrary.driftLoop, h0]
  | succ n ih =>
    intro k hk hkn changed
    have hkm : k < m.length := by omega
    have hk1m : k - 1 < m.length := by omega
    have hkt : k < t.length := by omega
    have hk1t : k - 1 < t.length := by omega
    have hprev : PatternLibrary.slopeAt m t k =
        PatternLibrary.slopeAt m t ((k + 1) - 1) := by norm_num
    have hcount := slopeChangesFrom_succ m t th k hkm
    rw [List.range'_succ]
    show PatternLibrary.driftLoop th m t (k :: List.range' (k + 1) n) _ changed = _
    unfold PatternLibrary.driftLoop
    rw [pyGet_lt m k 0 hkm, pyGet_lt m (k - 1) 0 hk1m,
        pyGet_lt t k 0 hkt, pyGet_lt t (k - 1) 0 hk1t]
    show (if pyAbs (PatternLibrary.slopeAt m t k -
                    PatternLibrary.slopeAt m t (k - 1)) > th then
            if changed then Except.ok false
            else PatternLibrary.driftLoop th m t (List.range' (k + 1) n)
              (PatternLibrary.slopeAt m t k) true
          else PatternLibrary.driftLoop th m t (List.range' (k + 1) n)
            (PatternLibrary.slopeAt m t k) changed) = _
    by_cases hc : pyAbs (PatternLibrary.slopeAt m t k -
        PatternLibrary.slopeAt m t (k - 1)) > th
    · rw [if_pos hc] at hcount
      rw [if_pos hc]
      cases changed with
      | true =>
        have hne : PatternLibrary.slopeChangesFrom m t th k ≠ 0 := by omega
        simp [hne]
      | false =>
        rw [hprev, ih (k + 1) (by omega) (by omega) true]
        have : (PatternLibrary.slopeChangesFrom m t th (k + 1) = 0) =
            (PatternLibrary.slopeChangesFrom m t th k = 1) := by
          apply propext
          omega
        simp [this]
    · rw [if_neg hc] at hcount
      rw [if_neg hc, hprev, ih (k + 1) (by omega) (by omega) changed]
      rw [show PatternLibrary.slopeChangesFrom m t th (k + 1) =
          PatternLibrary.slopeChangesFrom m t th k by omega]

/-- C5 amended: `drift(m, t, threshold)` (for a window of length >= 2,
a timestamp list at least as long, and a non-negative threshold) returns
true iff EXACTLY ONE consecutive slope differs from its immediately
preceding slope by more than the threshold — i.e. the "remains within
threshold of the new slope" clause of the claim must be read relative to
the immediately preceding slope, so a slope that creeps away from the
post-change slope in sub-threshold steps still counts as drift. -/
theorem c5_drift_amended (m t : List ℚ) (th : ℚ)
    (hm : 2 ≤ m.length) (ht : m.length ≤ t.length) (hth : 0 ≤ th) :
    PatternLibrary.drift m t th =
      .ok (decide ((PatternLibrary.slopeChangeIdxs m t th).length = 1)) := by
  unfold PatternLibrary.drift
  rw [pyGet_lt m 1 0 (by omega), pyGet_lt m 0 0 (by omega),
      pyGet_lt t 1 0 (by omega), pyGet_lt t 0 0 (by omega)]
  show PatternLibrary.driftLoop th m t (List.range' 1 (m.length - 1))
      ((m.getD 1 0 - m.getD 0 0) / (t.getD 1 0 - t.getD 0 0)) false = _
  rw [show m.length - 1 = (m.length - 2) + 1 by omega, List.range'_succ]
  unfold PatternLibrary.driftLoop
  rw [pyGet_lt m 1 0 (by omega), pyGet_lt m 0 0 (by omega),
      pyGet_lt t 1 0 (by omega), pyGet_lt t 0 0 (by omega)]
  have hzero : ¬ (pyAbs (PatternLibrary.slopeAt m t 1 -
      PatternLibrary.slopeAt m t 1) > th) := by
    rw [sub_self]
    show ¬ ((if (0:ℚ) < 0 then -(0:ℚ) else 0) > th)
    norm_num
    exact hth
  show (if pyAbs (PatternLibrary.slopeAt m t 1 -
                  PatternLibrary.slopeAt m t 1) > th then
          if false then Except.ok false
          else PatternLibrary.driftLoop th m t (List.range' 2 (m.length - 2))
            (PatternLibrary.slopeAt m t 1) true
        else PatternLibrary.driftLoop th m t (List.range' 2 (m.length - 2))
          (PatternLibrary.slopeAt m t 1) false) = _
  rw [if_neg hzero]
  rw [show PatternLibrary.slopeAt m t 1 = PatternLibrary.slopeAt m t (2 - 1) by norm_num,
      driftLoop_char m t th hth ht (m.length - 2) 2 (by omega) (by omega) false]
  rfl

unseal Rat.mul Rat.add Rat.sub Rat.inv in
/-- Witness for `c5_drift_amended` on a concrete window with exactly one
slope change: slopes 0, 1, 1, so the count is 1 and `drift` returns
true. -/
theorem c5_drift_amended_witness :
    (2 ≤ ([0, 0, 1, 2] : List ℚ).length) ∧
    (([0, 0, 1, 2] : List ℚ).length ≤ ([0, 1, 2, 3] : List ℚ).length) ∧
    ((0:ℚ) ≤ 1/1000) ∧
    PatternLibrary.drift [0, 0, 1, 2] [0, 1, 2, 3] (1/1000) =
      .ok (decide ((PatternLibrary.slopeChangeIdxs [0, 0, 1, 2] [0, 1, 2, 3]
        (1/1000)).length = 1)) :=
  ⟨by decide, by decide, by decide,
   c5_drift_amended [0, 0, 1, 2] [0, 1, 2, 3] (1/1000)
     (by decide) (by decide) (by decide)⟩

/-! Claim C6. -/

unseal Rat.mul Rat.add Rat.sub Rat.inv in
/-- C6 counterexample: on `dataPair` (3 rows, window size 2) the claim's
window set contains the anchors 0 and 1 and window 1 is stuck for both
sensors, so the claim-side procedure records the pattern pair (0, "B", 0)
for sensor A — but the code only iterates `range(rows - window_size)` =
`{0}`, skipping the final valid anchor, and records nothing. -/
theorem c6_window_sliding_counterexample :
    (findNormalPatterns sfPair dataPair tsPair 2).map
      (fun s => s.sensorPatternPairs "A") = .ok [] ∧
    (findNormalPatternsClaim sfPair dataPair tsPair 2).map
      (fun s => s.sensorPatternPairs "A") = .ok [(0, "B", 0)] := by
  refine ⟨by rfl, by rfl⟩

/-- C6 amended: normal-pattern learning processes exactly the windows
`data[i:i+window_size]` for the anchors i with `i + window_size < rows`
(the final valid anchor `rows - window_size` is skipped), and every
window's pattern matrix is computed with the globally passed timestamp
sequence (of which the first `window_size` entries are used), not with
the timestamps of the window's own rows. -/
theorem c6_window_sliding_amended (sf : SFDD) (data : List (List ℚ))
    (timestamps : List ℚ) (windowSize : ℕ) :
    findNormalPatterns sf data timestamps windowSize =
      findNormalPatternsAmended sf data timestamps windowSize := by
  unfold findNormalPatterns findNormalPatternsAmended
  simp only [List.foldlM_map]

/-! Claim C9. -/

theorem except_bind_ok_iff (x : Except PyErr α) (f : α → Except PyErr β) (b : β) :
    (x >>= f) = .ok b ↔ ∃ a, x = .ok a ∧ f a = .ok b := by
  cases x <;> simp [Bind.bind, Except.bind]

theorem except_bind_error_iff (x : Except PyErr α) (f : α → Except PyErr β)
    (e : PyErr) :
    (x >>= f) = .error e ↔
      (x = .error e ∨ ∃ a, x = .ok a ∧ f a = .error e) := by
  cases x <;> simp [Bind.bind, Except.bind]

theorem ancestors_error (g : DiGraph) (n : String) (e : PyErr)
    (h : g.ancestors n = .error e) : e = .networkXError := by
  unfold DiGraph.ancestors at h
  split_ifs at h with hn
  · exact (Except.error.inj h).symm

theorem findIndepAux_mem (g : DiGraph) (sa : List String) :
    ∀ (L l : List String), findIndepAux g sa L = .ok l →
      ∀ x, x ∈ l ↔
        (x ∈ L ∧ ∃ xa, g.ancestors x = .ok xa ∧ sa.inter xa = []) := by
  intro L
  induction L with
  | nil =>
    intro l hl x
    simp only [findIndepAux] at hl
    cases hl
    simp
  | cons o rest ih =>
    intro l hl x
    simp only [findIndepAux] at hl
    rcases (except_bind_ok_iff _ _ _).mp hl with ⟨oa, h1, h2⟩
    rcases (except_bind_ok_iff _ _ _).mp h2 with ⟨tail, h3, h4⟩
    have htail := ih tail h3
    by_cases hint : sa.inter oa = []
    · rw [if_pos hint] at h4
      cases h4
      constructor
      · intro hx
        rcases List.mem_cons.mp hx with hxo | hxtail
        · subst hxo
          exact ⟨List.mem_cons_self _ _, oa, h1, hint⟩
        · rcases (htail x).mp hxtail with ⟨hxrest, hrest⟩
          exact ⟨List.mem_cons_of_mem _ hxrest, hrest⟩
      · rintro ⟨hxL, xa, hxa, hxint⟩
        rcases List.mem_cons.mp hxL with hxo | hxrest
        · subst hxo
          exact List.mem_cons_self _ _
        · exact List.mem_cons_of_mem _ ((htail x).mpr ⟨hxrest, xa, hxa, hxint⟩)
    · rw [if_neg hint] at h4
      cases h4
      constructor
      · intro hx
        rcases (htail x).mp hx with ⟨hxrest, hrest⟩
        exact ⟨List.mem_cons_of_mem _ hxrest, hrest⟩
      · rintro ⟨hxL, xa, hxa, hxint⟩
        rcases List.mem_cons.mp hxL with hxo | hxrest
        · subst hxo
          rw [h1] at hxa
          cases hxa
          exact absurd hxint hint
        · exact (htail x).mpr ⟨hxrest, xa, hxa, hxint⟩

theorem findIndependentSensors_mem (g : DiGraph) (s : String)
    (L l sa : List String) (hanc : g.ancestors s = .ok sa)
    (h : findIndependentSensors g s L = .ok l) :
    ∀ x, x ∈ l ↔
      (x ∈ L ∧ ∃ xa, g.ancestors x = .ok xa ∧ sa.inter xa = []) := by
  unfold findIndependentSensors at h
  rcases (except_bind_ok_iff _ _ _).mp h with ⟨sa2, h1, h2⟩
  rw [hanc] at h1
  cases h1
  exact findIndepAux_mem g sa L l h2

/-- C9: the independence relation computed by
`find_independent_sensors` is symmetric on distinct sensors of the
sensor list (B is reported independent of A iff A is reported
independent of B), and a sensor whose own ancestor set is non-empty is
never reported independent of itself. -/
theorem c9_independence_symmetric (g : DiGraph) (A B S : String)
    (L la lb ls sa sb ss : List String)
    (hancA : g.ancestors A = .ok sa) (hancB : g.ancestors B = .ok sb)
    (hA : findIndependentSensors g A L = .ok la)
    (hB : findIndependentSensors g B L = .ok lb)
    (hAL : A ∈ L) (hBL : B ∈ L) (hAB : A ≠ B)
    (hancS : g.ancestors S = .ok ss) (hS : findIndependentSensors g S L = .ok ls)
    (hne : ss ≠ []) :
    (B ∈ la ↔ A ∈ lb) ∧ S ∉ ls := by
  constructor
  · rw [findIndependentSensors_mem g A L la sa hancA hA B,
        findIndependentSensors_mem g B L lb sb hancB hB A]
    constructor
    · rintro ⟨-, xa, hxa, hxint⟩
      rw [hancB] at hxa
      cases hxa
      exact ⟨hAL, sa, hancA, (list_inter_eq_nil_comm sa sb).mp hxint⟩
    · rintro ⟨-, xa, hxa, hxint⟩
      rw [hancA] at hxa
      cases hxa
      exact ⟨hBL, sb, hancB, (list_inter_eq_nil_comm sb sa).mp hxint⟩
  · intro hSin
    rcases (findIndependentSensors_mem g S L ls ss hancS hS S).mp hSin with
      ⟨-, xa, hxa, hxint⟩
    rw [hancS] at hxa
    cases hxa
    apply hne
    rw [List.eq_nil_iff_forall_not_mem]
    intro y hy
    exact ((list_inter_eq_nil_iff ss ss).mp hxint) y hy hy

/-- Witness for `c9_independence_symmetric` on the concrete structural
model `gTest` (X feeds A and C, Y feeds B) with the sensor list
[A, B, C]. -/
theorem c9_independence_symmetric_witness :
    (("B" ∈ ["B"]) ↔ ("A" ∈ ["A", "C"])) ∧ "A" ∉ ["B"] :=
  c9_independence_symmetric gTest "A" "B" "A" ["A", "B", "C"]
    ["B"] ["A", "C"] ["B"] ["X"] ["Y"] ["X"]
    (by rfl) (by rfl) (by rfl) (by rfl)
    (by decide) (by decide) (by decide) (by rfl) (by rfl) (by decide)

/-! Claim C10. -/

theorem findIndepAux_error (g : DiGraph) (sa : List String) :
    ∀ (L : List String) (e : PyErr), findIndepAux g sa L = .error e →
      e = .networkXError := by
  intro L
  induction L with
  | nil =>
    intro e h
    simp only [findIndepAux] at h
    cases h
  | cons o rest ih =>
    intro e h
    simp only [findIndepAux] at h
    rcases (except_bind_error_iff _ _ _).mp h with h1 | ⟨oa, h1, h2⟩
    · exact ancestors_error g o e h1
    · rcases (except_bind_error_iff _ _ _).mp h2 with h3 | ⟨tail, h3, h4⟩
      · exact ih e h3
      · split_ifs at h4 <;> cases h4

theorem findIndepAux_all_ok (g : DiGraph) (sa : List String) :
    ∀ (L l : List String), findIndepAux g sa L = .ok l →
      ∀ x ∈ L, ∃ xa, g.ancestors x = .ok xa := by
  intro L
  induction L with
  | nil =>
    intro l h x hx
    cases hx
  | cons o rest ih =>
    intro l h x hx
    simp only [findIndepAux] at h
    rcases (except_bind_ok_iff _ _ _).mp h with ⟨oa, h1, h2⟩
    rcases (except_bind_ok_iff _ _ _).mp h2 with ⟨tail, h3, h4⟩
    rcases List.mem_cons.mp hx with rfl | hxr
    · exact ⟨oa, h1⟩
    · exact ih tail h3 x hxr

theorem findIndependentSensors_stuck (g : DiGraph) (s : String)
    (L : List String) (hs : s ∈ L)
    (herr : g.ancestors s = .error .networkXError) :
    ∀ x, findIndependentSensors g x L = .error .networkXError := by
  intro x
  cases hx : findIndependentSensors g x L with
  | error e =>
    have he : e = .networkXError := by
      unfold findIndependentSensors at hx
      rcases (except_bind_error_iff _ _ _).mp hx with h1 | ⟨sa, h1, h2⟩
      · exact ancestors_error g x e h1
      · exact findIndepAux_error g sa L e h2
    rw [he]
  | ok l =>
    exfalso
    unfold findIndependentSensors at hx
    rcases (except_bind_ok_iff _ _ _).mp hx with ⟨sa, h1, h2⟩
    rcases findIndepAux_all_ok g sa L l h2 s hs with ⟨xa, hxa⟩
    rw [herr] at hxa
    cases hxa

/-- C10: a component declared with an empty parents list and never
referenced as anyone's parent is absent from the structural graph (the
graph is built only from parent-to-child edges), so the networkx
ancestor query on it raises, `find_independent_sensors` fails on it
instead of returning it with an empty ancestor set, and engine
construction — which queries every sensor of the sensor list — aborts
with the same error. -/
theorem c10_isolated_sensor_missing (comps : List ComponentParams)
    (s : String) (names L : List String) (tau : ℚ) (pc : ℕ)
    (hdecl : ∃ c ∈ comps, c.name = s ∧ c.parents = [])
    (hname : ∀ c ∈ comps, c.name = s → c.parents = [])
    (hpar : ∀ c ∈ comps, s ∉ c.parents)
    (hs : s ∈ names) :
    s ∉ (createModel comps).nodes ∧
    (createModel comps).ancestors s = .error .networkXError ∧
    findIndependentSensors (createModel comps) s L = .error .networkXError ∧
    SFDD.init names (createModel comps) tau pc = .error .networkXError := by
  have hnode : s ∉ (createModel comps).nodes := by
    intro hmem
    unfold createModel DiGraph.nodes at hmem
    rw [List.mem_dedup, List.mem_append] at hmem
    rcases hmem with hf | hsnd
    · rw [List.mem_map] at hf
      rcases hf with ⟨⟨p, cn⟩, hpc, hfst⟩
      rw [List.mem_flatMap] at hpc
      rcases hpc with ⟨comp, hcomp, hedge⟩
      rw [List.mem_map] at hedge
      rcases hedge with ⟨par, hparm, heq⟩
      cases heq
      cases hfst
      exact hpar comp hcomp hparm
    · rw [List.mem_map] at hsnd
      rcases hsnd with ⟨⟨p, cn⟩, hpc, hsnd2⟩
      rw [List.mem_flatMap] at hpc
      rcases hpc with ⟨comp, hcomp, hedge⟩
      rw [List.mem_map] at hedge
      rcases hedge with ⟨par, hparm, heq⟩
      cases heq
      cases hsnd2
      rw [hname comp hcomp rfl] at hparm
      cases hparm
  have hanc : (createModel comps).ancestors s = .error .networkXError := by
    unfold DiGraph.ancestors
    rw [if_neg hnode]
  have h3 : findIndependentSensors (createModel comps) s L =
      .error .networkXError := by
    unfold findIndependentSensors
    rw [hanc]
    rfl
  refine ⟨hnode, hanc, h3, ?_⟩
  cases names with
  | nil => cases hs
  | cons n rest =>
    have hstep : findIndependentSensors (createModel comps) n (n :: rest) =
        .error .networkXError :=
      findIndependentSensors_stuck (createModel comps) s (n :: rest) hs hanc n
    unfold SFDD.init
    rw [List.foldlM_cons, hstep]
    rfl

/-- Witness for `c10_isolated_sensor_missing` on `compsLonely` (sensor
"lonely" declared with no parents, never referenced as parent). -/
theorem c10_isolated_sensor_missing_witness :
    "lonely" ∉ (createModel compsLonely).nodes ∧
    (createModel compsLonely).ancestors "lonely" = .error .networkXError ∧
    findIndependentSensors (createModel compsLonely) "lonely" namesLonely =
      .error .networkXError ∧
    SFDD.init namesLonely (createModel compsLonely) (4/5) 2 =
      .error .networkXError :=
  c10_isolated_sensor_missing compsLonely "lonely" namesLonely namesLonely
    (4/5) 2 ⟨⟨"lonely", "sensor", []⟩, by decide, by decide⟩
    (by decide) (by decide) (by decide)

/-! Claim C3. -/

theorem except_map_ok_iff (x : Except PyErr α) (f : α → β) (b : β) :
    x.map f = .ok b ↔ ∃ a, x = .ok a ∧ f a = b := by
  cases x <;> simp [Except.map]

theorem getD_of_get? (xs : List α) (i : ℕ) (d x : α)
    (h : xs.get? i = some x) : xs.getD i d = x := by
  rw [List.getD_eq_getElem?_getD, ← List.get?_eq_getElem?, h]
  rfl

theorem activeIdxs_ne_nil (row : List Bool) (h : row.any id = true) :
    activeIdxs row ≠ [] := by
  rcases List.any_eq_true.mp h with ⟨b, hb, hbt⟩
  intro hnil
  rcases List.mem_iff_get?.mp hb with ⟨i, hi⟩
  have hmem : (i, b) ∈ row.enum :=
    List.mem_enum_iff_getElem?.mpr (by rw [← List.get?_eq_getElem?]; exact hi)
  have : i ∈ activeIdxs row := by
    unfold activeIdxs
    apply List.mem_filterMap.mpr
    refine ⟨(i, b), hmem, ?_⟩
    have hbtrue : b = true := hbt
    rw [hbtrue]
    rfl
  rw [hnil] at this
  cases this

theorem flagUpdate_all_true (test : ℕ → Bool) (l : List ℕ) (b : Bool)
    (hne : l ≠ []) (hall : ∀ p ∈ l, test p = true) :
    flagUpdate test l b = !b := by
  cases l with
  | nil => cases hne rfl
  | cons p rest =>
    unfold flagUpdate
    rw [hall p (List.mem_cons_self _ _)]
    rfl

theorem flagUpdate_all_false (test : ℕ → Bool) :
    ∀ (l : List ℕ) (b : Bool), l ≠ [] → (∀ p ∈ l, test p = false) →
      flagUpdate test l b = true := by
  intro l
  induction l with
  | nil =>
    intro b h
    cases h rfl
  | cons p rest ih =>
    intro b _ hall
    unfold flagUpdate
    rw [hall p (List.mem_cons_self _ _)]
    simp only [Bool.false_eq_true, if_false]
    cases rest with
    | nil => rfl
    | cons q qs =>
      exact ih _ (by simp) (fun x hx => hall x (List.mem_cons_of_mem _ hx))

open CorrelationLibrary in
theorem sensorStep_ok (tau : ℚ) (indep : List ℕ)
    (correlations : List (List CorrEntry)) (patterns : List (List Bool))
    (i : ℕ) (b f : Bool) (row : List Bool)
    (hrow : patterns.get? i = some row)
    (h : sensorStep tau indep correlations patterns i b = .ok f) :
    (row.any id = false → f = true) ∧
    (row.any id = true → ∃ corrRow, correlations.get? i = some corrRow ∧
      f = flagUpdate (fun p => uncorroborated (basicCorrelatedIdx corrRow tau)
        patterns indep p) (activeIdxs row) b) := by
  unfold sensorStep at h
  rcases (except_bind_ok_iff _ _ _).mp h with ⟨row2, hrow2, h2⟩
  rw [pyGet_ok_iff, hrow] at hrow2
  cases hrow2
  constructor
  · intro hany
    rw [if_pos hany] at h2
    exact (Except.ok.inj h2).symm
  · intro hany
    rw [if_neg (by rw [hany]; simp)] at h2
    rcases (except_bind_ok_iff _ _ _).mp h2 with ⟨corrRow, hcorr, hpure⟩
    rw [pyGet_ok_iff] at hcorr
    exact ⟨corrRow, hcorr, (Except.ok.inj hpure).symm⟩

open CorrelationLibrary in
theorem workingFold_untouched (tau : ℚ) (indep : String → List ℕ)
    (correlations : List (List CorrEntry)) (patterns : List (List Bool)) :
    ∀ (l : List (ℕ × String)) (wk wk' : String → Bool),
      l.foldlM (fun wk2 pair => do
        let flag ← sensorStep tau (indep pair.2) correlations patterns
          pair.1 (wk2 pair.2)
        pure (fun x => if x = pair.2 then flag else wk2 x)) wk = .ok wk' →
      ∀ x, x ∉ l.map Prod.snd → wk' x = wk x := by
  intro l
  induction l with
  | nil =>
    intro wk wk' h x _
    rw [List.foldlM_nil] at h
    rw [(Except.ok.inj h).symm]
  | cons hd tl ih =>
    intro wk wk' h x hx
    rw [List.foldlM_cons] at h
    rcases (except_bind_ok_iff _ _ _).mp h with ⟨wk1, hstep, hrest⟩
    rcases (except_bind_ok_iff _ _ _).mp hstep with ⟨flag, _, hpure⟩
    have hwk1 := (Except.ok.inj hpure).symm
    simp only [List.map_cons, List.mem_cons, not_or] at hx
    rw [ih wk1 wk' hrest x hx.2, hwk1]
    exact if_neg hx.1

open CorrelationLibrary in
theorem workingFold_mem (tau : ℚ) (indep : String → List ℕ)
    (correlations : List (List CorrEntry)) (patterns : List (List Bool)) :
    ∀ (l : List (ℕ × String)) (wk wk' : String → Bool),
      (l.map Prod.snd).Nodup →
      l.foldlM (fun wk2 pair => do
        let flag ← sensorStep tau (indep pair.2) correlations patterns
          pair.1 (wk2 pair.2)
        pure (fun x => if x = pair.2 then flag else wk2 x)) wk = .ok wk' →
      ∀ i s, (i, s) ∈ l →
        ∃ f, sensorStep tau (indep s) correlations patterns i (wk s) = .ok f ∧
          wk' s = f := by
  intro l
  induction l with
  | nil =>
    intro wk wk' _ _ i s hmem
    cases hmem
  | cons hd tl ih =>
    intro wk wk' hnodup h i s hmem
    rw [List.foldlM_cons] at h
    rcases (except_bind_ok_iff _ _ _).mp h with ⟨wk1, hstep, hrest⟩
    rcases (except_bind_ok_iff _ _ _).mp hstep with ⟨flag, hflag, hpure⟩
    have hwk1 := (Except.ok.inj hpure).symm
    simp only [List.map_cons, List.nodup_cons] at hnodup
    rcases List.mem_cons.mp hmem with heq | htl
    · cases heq
      refine ⟨flag, hflag, ?_⟩
      have hnot : s ∉ tl.map Prod.snd := hnodup.1
      rw [workingFold_untouched tau indep correlations patterns tl wk1 wk'
        hrest s hnot, hwk1]
      exact if_pos rfl
    · have hs_tl : s ∈ tl.map Prod.snd :=
        List.mem_map.mpr ⟨(i, s), htl, rfl⟩
      have hne : s ≠ hd.2 := by
        intro heq
        rw [heq] at hs_tl
        exact hnodup.1 hs_tl
      have hwk1s : wk1 s = wk s := by
        rw [hwk1]
        exact if_neg hne
      rcases ih wk1 wk' hnodup.2 hrest i s htl with ⟨f, hf, hws⟩
      rw [hwk1s] at hf
      exact ⟨f, hf, hws⟩

theorem monitorBasic_ok (sf : SFDD) (data : List (List ℚ)) (t : List ℚ)
    (ws : ℤ) (anoms : List String) (sf1 : SFDD)
    (h : monitorSensorsBasic sf data t ws = .ok (anoms, sf1)) :
    ∃ pats working,
      basicPatterns sf.patternCount data (basicWindowSize data.length ws) t =
        .ok pats ∧
      sf.sensorNames.enum.foldlM (fun wk pair => do
          let flag ← sensorStep sf.correlationThreshold
            (sf.independentSensors pair.2)
            (basicCorrelations data (basicWindowSize data.length ws)) pats
            pair.1 (wk pair.2)
          pure (fun x => if x = pair.2 then flag else wk x))
        sf.sensorWorking = .ok working ∧
      anoms = sf.sensorNames.filter (fun s => !(working s)) ∧
      sf1 = { sf with sensorWorking := working } := by
  unfold monitorSensorsBasic at h
  rcases (except_bind_ok_iff _ _ _).mp h with ⟨pats, hpats, h2⟩
  rcases (except_bind_ok_iff _ _ _).mp h2 with ⟨working, hfold, h3⟩
  have hpair := Except.ok.inj h3
  refine ⟨pats, working, hpats, hfold, ?_, ?_⟩
  · exact (congrArg Prod.fst hpair).symm
  · exact (congrArg Prod.snd hpair).symm

theorem monitorBasic_flag (sf : SFDD) (data : List (List ℚ)) (t : List ℚ)
    (ws : ℤ) (anoms : List String) (sf1 : SFDD)
    (pats : List (List Bool)) (i : ℕ) (s : String) (row : List Bool)
    (hcall : monitorSensorsBasic sf data t ws = .ok (anoms, sf1))
    (hpats : basicPatterns sf.patternCount data (basicWindowSize data.length ws)
      t = .ok pats)
    (hnodup : sf.sensorNames.Nodup)
    (hi : sf.sensorNames.get? i = some s)
    (hrow : pats.get? i = some row) :
    (row.any id = false → sf1.sensorWorking s = true) ∧
    (row.any id = true →
      (∀ p ∈ activeIdxs row, basicUncorrobTest sf data ws pats s i p = true) →
      sf1.sensorWorking s = !(sf.sensorWorking s)) ∧
    (row.any id = true →
      (∀ p ∈ activeIdxs row, basicUncorrobTest sf data ws pats s i p = false) →
      sf1.sensorWorking s = true) := by
  rcases monitorBasic_ok sf data t ws anoms sf1 hcall with
    ⟨pats2, working, hpats2, hfold, hanoms, hsf⟩
  rw [hpats] at hpats2
  cases Except.ok.inj hpats2
  have hmem : (i, s) ∈ sf.sensorNames.enum :=
    List.mem_enum_iff_getElem?.mpr (by rw [← List.get?_eq_getElem?]; exact hi)
  have hnodup2 : (sf.sensorNames.enum.map Prod.snd).Nodup := by
    rw [List.enum_map_snd]
    exact hnodup
  rcases workingFold_mem sf.correlationThreshold sf.independentSensors
    (basicCorrelations data (basicWindowSize data.length ws)) pats
    sf.sensorNames.enum sf.sensorWorking working hnodup2 hfold i s hmem with
    ⟨f, hstep, hws⟩
  have hsf1 : sf1.sensorWorking s = f := by
    rw [hsf]
    exact hws
  rcases sensorStep_ok sf.correlationThreshold (sf.independentSensors s)
    (basicCorrelations data (basicWindowSize data.length ws)) pats i
    (sf.sensorWorking s) f row hrow hstep with ⟨hc1, hc2⟩
  refine ⟨?_, ?_, ?_⟩
  · intro hany
    rw [hsf1]
    exact hc1 hany
  · intro hany htest
    rcases hc2 hany with ⟨corrRow, hcorr, hf⟩
    rw [hsf1, hf]
    apply flagUpdate_all_true
    · exact activeIdxs_ne_nil row hany
    · intro p hp
      have ht := htest p hp
      unfold basicUncorrobTest at ht
      rw [getD_of_get? _ i [] corrRow hcorr] at ht
      exact ht
  · intro hany htest
    rcases hc2 hany with ⟨corrRow, hcorr, hf⟩
    rw [hsf1, hf]
    apply flagUpdate_all_false
    · exact activeIdxs_ne_nil row hany
    · intro p hp
      have ht := htest p hp
      unfold basicUncorrobTest at ht
      rw [getD_of_get? _ i [] corrRow hcorr] at ht
      exact ht

theorem monitorBasicRuns_char (data : List (List ℚ)) (t : List ℚ) (ws : ℤ)
    (sf : SFDD) (pats : List (List Bool)) (i : ℕ) (s : String)
    (row : List Bool)
    (hpats : basicPatterns sf.patternCount data (basicWindowSize data.length ws)
      t = .ok pats)
    (hnodup : sf.sensorNames.Nodup)
    (hi : sf.sensorNames.get? i = some s)
    (hrow : pats.get? i = some row)
    (hany : row.any id = true)
    (htest : ∀ p ∈ activeIdxs row, basicUncorrobTest sf data ws pats s i p = true) :
    ∀ (N : ℕ) (out : List String × SFDD),
      monitorBasicRuns data t ws sf N = .ok out →
      out.2.sensorNames = sf.sensorNames ∧
      out.2.correlationThreshold = sf.correlationThreshold ∧
      out.2.patternCount = sf.patternCount ∧
      out.2.independentSensors = sf.independentSensors ∧
      out.2.sensorWorking s = xor (decide (N % 2 = 1)) (sf.sensorWorking s) ∧
      (1 ≤ N → (s ∈ out.1 ↔ out.2.sensorWorking s = false)) := by
  intro N
  induction N with
  | zero =>
    intro out h
    cases Except.ok.inj h
    refine ⟨rfl, rfl, rfl, rfl, by simp, by omega⟩
  | succ n ih =>
    intro out h
    simp only [monitorBasicRuns] at h
    rcases (except_bind_ok_iff _ _ _).mp h with ⟨prev, hprev, hcall⟩
    rcases ih prev hprev with ⟨hn, ht2, hpc, hind, hwork, _⟩
    have hpats2 : basicPatterns prev.2.patternCount data
        (basicWindowSize data.length ws) t = .ok pats := by
      rw [hpc]
      exact hpats
    have hnodup2 : prev.2.sensorNames.Nodup := by
      rw [hn]
      exact hnodup
    have hi2 : prev.2.sensorNames.get? i = some s := by
      rw [hn]
      exact hi
    have htest2 : ∀ p ∈ activeIdxs row,
        basicUncorrobTest prev.2 data ws pats s i p = true := by
      intro p hp
      have ht3 := htest p hp
      unfold basicUncorrobTest at ht3 ⊢
      rw [ht2, hind]
      exact ht3
    obtain ⟨anoms, sf1⟩ := out
    rcases monitorBasic_ok prev.2 data t ws anoms sf1 hcall with
      ⟨pats3, working, hpats3, _, hanoms, hsf⟩
    have htog := (monitorBasic_flag prev.2 data t ws anoms sf1 pats i s row
      hcall hpats2 hnodup2 hi2 hrow).2.1 hany htest2
    have hstat1 : sf1.sensorNames = prev.2.sensorNames := by rw [hsf]
    have hstat2 : sf1.correlationThreshold = prev.2.correlationThreshold := by
      rw [hsf]
    have hstat3 : sf1.patternCount = prev.2.patternCount := by rw [hsf]
    have hstat4 : sf1.independentSensors = prev.2.independentSensors := by
      rw [hsf]
    refine ⟨by rw [hstat1, hn], by rw [hstat2, ht2], by rw [hstat3, hpc],
      by rw [hstat4, hind], ?_, ?_⟩
    · rw [htog, hwork]
      rcases Nat.mod_two_eq_zero_or_one n with h2 | h2
      · have h3 : (n + 1) % 2 = 1 := by omega
        simp [h2, h3]
      · have h3 : (n + 1) % 2 = 0 := by omega
        simp [h2, h3]
    · intro _
      have hsw : sf1.sensorWorking = working := by rw [hsf]
      show s ∈ anoms ↔ sf1.sensorWorking s = false
      rw [hanoms, List.mem_filter, hsw]
      have hsmem : s ∈ prev.2.sensorNames := List.get?_mem hi2
      constructor
      · rintro ⟨-, hflag⟩
        cases hb : working s
        · rfl
        · rw [hb] at hflag
          simp at hflag
      · intro hflag
        refine ⟨hsmem, ?_⟩
        rw [hflag]
        rfl


theorem any_of_activeIdxs (row : List Bool) (h : activeIdxs row ≠ []) :
    row.any id = true := by
  cases hany : row.any id with
  | true => rfl
  | false =>
    exfalso
    apply h
    unfold activeIdxs
    rw [List.filterMap_eq_nil_iff]
    rintro ⟨i, b⟩ hmem
    have hb : b ∈ row := by
      have hmap : b ∈ row.enum.map Prod.snd :=
        List.mem_map.mpr ⟨(i, b), hmem, rfl⟩
      rw [List.enum_map_snd] at hmap
      exact hmap
    have hbf : b = false := by
      cases hbv : b
      · rfl
      · exfalso
        have htrue : row.any id = true :=
          List.any_eq_true.mpr ⟨b, hb, by rw [hbv]; rfl⟩
        rw [hany] at htrue
        cases htrue
    rw [hbf]
    rfl

theorem flagUpdate_head (test : ℕ → Bool) (p : ℕ) (rest : List ℕ) (b : Bool)
    (h : test p = true) : flagUpdate test (p :: rest) b = !b := by
  unfold flagUpdate
  rw [h]
  rfl

theorem flagUpdate_from_true (test : ℕ → Bool) :
    ∀ l : List ℕ, flagUpdate test l true = l.all (fun q => !(test q)) := by
  intro l
  induction l with
  | nil => rfl
  | cons p rest ih =>
    cases hp : test p with
    | true => simp [flagUpdate, hp]
    | false => simp [flagUpdate, hp, ih]

theorem monitorBasic_flag_mixed (sf : SFDD) (data : List (List ℚ)) (t : List ℚ)
    (ws : ℤ) (anoms : List String) (sf1 : SFDD)
    (pats : List (List Bool)) (i p0 : ℕ) (s : String) (row : List Bool)
    (hcall : monitorSensorsBasic sf data t ws = .ok (anoms, sf1))
    (hpats : basicPatterns sf.patternCount data (basicWindowSize data.length ws)
      t = .ok pats)
    (hnodup : sf.sensorNames.Nodup)
    (hi : sf.sensorNames.get? i = some s)
    (hrow : pats.get? i = some row)
    (hhead : (activeIdxs row).head? = some p0) :
    (basicUncorrobTest sf data ws pats s i p0 = true →
      sf1.sensorWorking s = !(sf.sensorWorking s)) ∧
    (basicUncorrobTest sf data ws pats s i p0 = false →
      (∃ q ∈ activeIdxs row, basicUncorrobTest sf data ws pats s i q = true) →
      sf1.sensorWorking s = false) := by
  have hne : activeIdxs row ≠ [] := by
    intro h0
    rw [h0] at hhead
    cases hhead
  have hany : row.any id = true := any_of_activeIdxs row hne
  rcases monitorBasic_ok sf data t ws anoms sf1 hcall with
    ⟨pats2, working, hpats2, hfold, _, hsf⟩
  rw [hpats] at hpats2
  cases Except.ok.inj hpats2
  have hmem : (i, s) ∈ sf.sensorNames.enum :=
    List.mem_enum_iff_getElem?.mpr (by rw [← List.get?_eq_getElem?]; exact hi)
  have hnodup2 : (sf.sensorNames.enum.map Prod.snd).Nodup := by
    rw [List.enum_map_snd]
    exact hnodup
  rcases workingFold_mem sf.correlationThreshold sf.independentSensors
    (basicCorrelations data (basicWindowSize data.length ws)) pats
    sf.sensorNames.enum sf.sensorWorking working hnodup2 hfold i s hmem with
    ⟨f, hstep, hws⟩
  have hsf1 : sf1.sensorWorking s = f := by
    rw [hsf]
    exact hws
  rcases sensorStep_ok sf.correlationThreshold (sf.independentSensors s)
    (basicCorrelations data (basicWindowSize data.length ws)) pats i
    (sf.sensorWorking s) f row hrow hstep with ⟨_, hc2⟩
  rcases hc2 hany with ⟨corrRow, hcorr, hf⟩
  have htesteq : ∀ p, uncorroborated
      (basicCorrelatedIdx corrRow sf.correlationThreshold) pats
      (sf.independentSensors s) p = basicUncorrobTest sf data ws pats s i p := by
    intro p
    unfold basicUncorrobTest
    rw [getD_of_get? _ i [] corrRow hcorr]
  obtain ⟨tail, htail⟩ : ∃ tail, activeIdxs row = p0 :: tail := by
    cases hAI : activeIdxs row with
    | nil =>
      rw [hAI] at hhead
      cases hhead
    | cons a as =>
      rw [hAI, List.head?_cons] at hhead
      cases Option.some.inj hhead
      exact ⟨as, rfl⟩
  constructor
  · intro ht
    rw [hsf1, hf, htail]
    apply flagUpdate_head
    show uncorroborated (basicCorrelatedIdx corrRow sf.correlationThreshold)
      pats (sf.independentSensors s) p0 = true
    rw [htesteq]
    exact ht
  · intro ht hex
    rw [hsf1, hf, htail]
    have hp0 : uncorroborated (basicCorrelatedIdx corrRow sf.correlationThreshold)
        pats (sf.independentSensors s) p0 = false := by
      rw [htesteq]
      exact ht
    unfold flagUpdate
    simp only [hp0, Bool.false_eq_true, if_false]
    rw [flagUpdate_from_true]
    rw [List.all_eq_false]
    rcases hex with ⟨q, hqmem, hqt⟩
    rw [htail] at hqmem
    have hq_tail : q ∈ tail := by
      rcases List.mem_cons.mp hqmem with rfl | hq
      · exfalso
        rw [ht] at hqt
        cases hqt
      · exact hq
    refine ⟨q, hq_tail, ?_⟩
    show ¬ ((!(uncorroborated (basicCorrelatedIdx corrRow sf.correlationThreshold)
      pats (sf.independentSensors s) q)) = true)
    rw [htesteq, hqt]
    simp

unseal Rat.mul Rat.add Rat.sub Rat.inv in
/-- C3 counterexample: on `dataMix` sensor A exhibits both patterns; its
stuck-at detection (pattern 0) is uncorroborated while its drift
detection (pattern 1) IS corroborated by the independent, correlated
sensor B — yet, starting from working = true, the call leaves A's flag
false and reports A anomalous, whereas the claimed state machine ("a
call with a corroborated pattern detection sets the flag to true")
requires A's flag to be reset to true and A left unreported. -/
theorem c3_mixed_pattern_counterexample :
    basicPatterns sfMix.patternCount dataMix (basicWindowSize dataMix.length 2)
      tsMix = .ok [[true, true], [false, true]] ∧
    basicUncorrobTest sfMix dataMix 2 [[true, true], [false, true]] "A" 0 0 =
      true ∧
    basicUncorrobTest sfMix dataMix 2 [[true, true], [false, true]] "A" 0 1 =
      false ∧
    sfMix.sensorWorking "A" = true ∧
    (monitorSensorsBasic sfMix dataMix tsMix 2).map
      (fun r => r.2.sensorWorking "A") = .ok false ∧
    (monitorSensorsBasic sfMix dataMix tsMix 2).map Prod.fst = .ok ["A"] := by
  refine ⟨by decide, by decide, by decide, by rfl, by decide, by decide⟩

/-- C3 amended: across successive calls of `monitor_sensors_basic` each
sensor's persistent working flag follows the state machine the code
implements — a call with no active pattern forces the flag to true; a
call whose FIRST active pattern is uncorroborated toggles the flag
(in particular, any fully uncorroborated detection toggles); the flag is
reset to true only when EVERY active pattern is corroborated; when an
uncorroborated pattern is preceded by a corroborated first pattern the
flag ends false regardless of its previous value (corroboration of one
pattern does NOT exonerate the sensor, contrary to the original claim);
the call returns exactly the sensors whose flag is false after the
update; and starting from working = true, N consecutive uncorroborated
detections leave the sensor reported as not-working exactly when N is
odd. -/
theorem c3_working_flag_amended (data : List (List ℚ)) (t : List ℚ)
    (ws : ℤ) :
    (∀ (sf : SFDD) (b : Bool) pats i s row,
      (monitorSensorsBasic sf data t ws).map (fun r => r.2.sensorWorking s) =
        .ok b →
      basicPatterns sf.patternCount data (basicWindowSize data.length ws) t =
        .ok pats →
      sf.sensorNames.Nodup → sf.sensorNames.get? i = some s →
      pats.get? i = some row → row.any id = false → b = true) ∧
    (∀ (sf : SFDD) (b : Bool) pats i s row (p0 : ℕ),
      (monitorSensorsBasic sf data t ws).map (fun r => r.2.sensorWorking s) =
        .ok b →
      basicPatterns sf.patternCount data (basicWindowSize data.length ws) t =
        .ok pats →
      sf.sensorNames.Nodup → sf.sensorNames.get? i = some s →
      pats.get? i = some row → (activeIdxs row).head? = some p0 →
      basicUncorrobTest sf data ws pats s i p0 = true →
      b = !(sf.sensorWorking s)) ∧
    (∀ (sf : SFDD) (b : Bool) pats i s row,
      (monitorSensorsBasic sf data t ws).map (fun r => r.2.sensorWorking s) =
        .ok b →
      basicPatterns sf.patternCount data (basicWindowSize data.length ws) t =
        .ok pats →
      sf.sensorNames.Nodup → sf.sensorNames.get? i = some s →
      pats.get? i = some row → row.any id = true →
      (∀ p ∈ activeIdxs row, basicUncorrobTest sf data ws pats s i p = false) →
      b = true) ∧
    (∀ (sf : SFDD) (b : Bool) pats i s row (p0 : ℕ),
      (monitorSensorsBasic sf data t ws).map (fun r => r.2.sensorWorking s) =
        .ok b →
      basicPatterns sf.patternCount data (basicWindowSize data.length ws) t =
        .ok pats →
      sf.sensorNames.Nodup → sf.sensorNames.get? i = some s →
      pats.get? i = some row → (activeIdxs row).head? = some p0 →
      basicUncorrobTest sf data ws pats s i p0 = false →
      (∃ q ∈ activeIdxs row, basicUncorrobTest sf data ws pats s i q = true) →
      b = false) ∧
    (∀ (sf : SFDD) (anoms : List String) (w : String → Bool),
      (monitorSensorsBasic sf data t ws).map Prod.fst = .ok anoms →
      (monitorSensorsBasic sf data t ws).map (fun r => r.2.sensorWorking) =
        .ok w →
      anoms = sf.sensorNames.filter (fun x => !(w x))) ∧
    (∀ (sf : SFDD) pats i s row (N : ℕ) (anoms : List String) (b : Bool),
      basicPatterns sf.patternCount data (basicWindowSize data.length ws) t =
        .ok pats →
      sf.sensorNames.Nodup → sf.sensorNames.get? i = some s →
      pats.get? i = some row → row.any id = true →
      (∀ p ∈ activeIdxs row, basicUncorrobTest sf data ws pats s i p = true) →
      sf.sensorWorking s = true →
      (monitorBasicRuns data t ws sf N).map Prod.fst = .ok anoms →
      (monitorBasicRuns data t ws sf N).map (fun r => r.2.sensorWorking s) =
        .ok b →
      ((s ∈ anoms ↔ (1 ≤ N ∧ N % 2 = 1)) ∧ b = decide (N % 2 = 0))) := by
  refine ⟨?_, ?_, ?_, ?_, ?_, ?_⟩
  · intro sf b pats i s row hb hpats hnodup hi hrow hany
    rcases (except_map_ok_iff _ _ _).mp hb with ⟨⟨anoms, sf1⟩, hcall, hproj⟩
    rw [← hproj]
    exact (monitorBasic_flag sf data t ws anoms sf1 pats i s row hcall hpats
      hnodup hi hrow).1 hany
  · intro sf b pats i s row p0 hb hpats hnodup hi hrow hhead htest
    rcases (except_map_ok_iff _ _ _).mp hb with ⟨⟨anoms, sf1⟩, hcall, hproj⟩
    rw [← hproj]
    exact (monitorBasic_flag_mixed sf data t ws anoms sf1 pats i p0 s row
      hcall hpats hnodup hi hrow hhead).1 htest
  · intro sf b pats i s row hb hpats hnodup hi hrow hany htest
    rcases (except_map_ok_iff _ _ _).mp hb with ⟨⟨anoms, sf1⟩, hcall, hproj⟩
    rw [← hproj]
    exact (monitorBasic_flag sf data t ws anoms sf1 pats i s row hcall hpats
      hnodup hi hrow).2.2 hany htest
  · intro sf b pats i s row p0 hb hpats hnodup hi hrow hhead htest hex
    rcases (except_map_ok_iff _ _ _).mp hb with ⟨⟨anoms, sf1⟩, hcall, hproj⟩
    rw [← hproj]
    exact (monitorBasic_flag_mixed sf data t ws anoms sf1 pats i p0 s row
      hcall hpats hnodup hi hrow hhead).2 htest hex
  · intro sf anoms w ha hw
    rcases (except_map_ok_iff _ _ _).mp ha with ⟨⟨anoms1, sf1⟩, hcall, hproj⟩
    rcases (except_map_ok_iff _ _ _).mp hw with ⟨⟨anoms2, sf2⟩, hcall2, hproj2⟩
    have hsame := Except.ok.inj (hcall ▸ hcall2)
    rcases monitorBasic_ok sf data t ws anoms1 sf1 hcall with
      ⟨pats, working, _, _, hanoms, hsf⟩
    have hw2 : sf1.sensorWorking = working := by rw [hsf]
    have h1 : anoms = anoms1 := hproj.symm
    have h2 : w = sf1.sensorWorking := by
      rw [← hproj2]
      rw [show sf2 = sf1 from (congrArg Prod.snd hsame).symm]
    rw [h1, hanoms, h2, hw2]
  · intro sf pats i s row N anoms b hpats hnodup hi hrow hany htest hstart
      hruns1 hruns2
    rcases (except_map_ok_iff _ _ _).mp hruns1 with ⟨out1, hout1, hproj1⟩
    rcases (except_map_ok_iff _ _ _).mp hruns2 with ⟨out2, hout2, hproj2⟩
    have hsame : out1 = out2 := Except.ok.inj (hout1 ▸ hout2)
    rcases monitorBasicRuns_char data t ws sf pats i s row hpats hnodup hi
      hrow hany htest N out1 hout1 with ⟨_, _, _, _, hwork, hanom⟩
    rw [hstart] at hwork
    constructor
    · rw [← hproj1]
      cases N with
      | zero =>
        cases Except.ok.inj hout1
        simp
      | succ n =>
        rw [hanom (by omega)]
        rw [hwork]
        rcases Nat.mod_two_eq_zero_or_one (n + 1) with h2 | h2 <;>
          simp [h2]
    · rw [← hproj2, ← hsame, hwork]
      rcases Nat.mod_two_eq_zero_or_one N with h2 | h2
      · have h3 : ¬(N % 2 = 1) := by omega
        simp [h2, h3]
      · have h3 : ¬(N % 2 = 0) := by omega
        simp [h2, h3]

unseal Rat.mul Rat.add Rat.sub Rat.inv in
/-- Witness for `c3_working_flag_amended`: on the one-sensor engine
`sfOne` over the constant window `dataOne`, three consecutive calls (all
uncorroborated stuck-at detections) end with the sensor reported as
not-working (3 is odd) and its flag false. -/
theorem c3_working_flag_amended_witness :
    (("A" ∈ (["A"] : List String)) ↔ (1 ≤ 3 ∧ 3 % 2 = 1)) ∧
    false = decide (3 % 2 = 0) :=
  (c3_working_flag_amended dataOne tsOne 2).2.2.2.2.2 sfOne
    [[true, false]] 0 "A" [true, false] 3 ["A"] false
    (by rfl) (by decide) (by rfl) (by rfl) (by rfl)
    (by decide) (by rfl) (by rfl) (by rfl)
